import Mathlib

/-!
Shallow embedding of the competitor-analysis report generator
(`src/services/html_generator.py`, `src/pipelines/competitor_pipeline.py`,
`src/agents/schemas.py`).  Python dictionaries decoded from JSON are modelled
by the `Json` type, Python exceptions by `PyError`, and the external
generation capability (`Runner.run`) together with the system clock
(`datetime.now`) by an explicit `Env` record, so that every function of the
source becomes a pure, executable Lean function.
-/

namespace CompetitorReport

/-- JSON values as produced by Python's `json.loads`: `null`/`True`/`False`,
numbers (restricted to integers, which covers every input arising in this
development), strings, arrays, and objects (Python `dict`s, insertion
ordered, keys unique). -/
inductive Json where
  | null
  | bool (b : Bool)
  | num (n : Int)
  | str (s : String)
  | arr (elems : List Json)
  | obj (fields : List (String × Json))

/-- Python exceptions that the modelled code can raise or propagate. -/
inductive PyError where
  | valueError (msg : String)
  | jsonDecodeError (msg : String)
  | attributeError (msg : String)
  | typeError (msg : String)
  | zeroDivisionError
  | runtimeError (msg : String)
deriving DecidableEq

/-- Python `str(e)` on an exception: its message. -/
def PyError.message : PyError → String
  | .valueError m => m
  | .jsonDecodeError m => m
  | .attributeError m => m
  | .typeError m => m
  | .zeroDivisionError => "division by zero"
  | .runtimeError m => m

mutual

/-- Python `repr` on JSON-decoded values (string quoting simplified to plain
single quotes; only strings, numbers, booleans and `None` reach `repr`
through the claims). -/
def pyRepr : Json → String
  | .null => "None"
  | .bool true => "True"
  | .bool false => "False"
  | .num n => toString n
  | .str s => "'" ++ s ++ "'"
  | .arr l => "[" ++ pyReprElems l ++ "]"
  | .obj fs => "\x7b" ++ pyReprFields fs ++ "\x7d"

def pyReprElems : List Json → String
  | [] => ""
  | [x] => pyRepr x
  | x :: y :: xs => pyRepr x ++ ", " ++ pyReprElems (y :: xs)

def pyReprFields : List (String × Json) → String
  | [] => ""
  | [(k, v)] => "'" ++ k ++ "': " ++ pyRepr v
  | (k, v) :: y :: xs => "'" ++ k ++ "': " ++ pyRepr v ++ ", " ++ pyReprFields (y :: xs)

end

/-- Python `str` on JSON-decoded values (as applied by f-strings and
`str.format`): the identity on strings, `repr`-like otherwise. -/
def pyStr : Json → String
  | .str s => s
  | v => pyRepr v

/-- Python truthiness of a JSON-decoded value (`if x:` / `x or y`). -/
def pyTruthy : Json → Bool
  | .null => false
  | .bool b => b
  | .num n => decide (n ≠ 0)
  | .str s => decide (s ≠ "")
  | .arr l => !l.isEmpty
  | .obj fs => !fs.isEmpty

/-- First-match lookup in a (deduplicated, insertion-ordered) Python dict. -/
def jLookup : List (String × Json) → String → Option Json
  | [], _ => none
  | (k', v) :: rest, k => if k' = k then some v else jLookup rest k

/-- Python `d[k] = v` on a dict with `String` keys: update in place if the key
exists, else append. -/
def dictInsertJ : List (String × Json) → String → Json → List (String × Json)
  | [], k, v => [(k, v)]
  | (k', v') :: rest, k, v =>
    if k' = k then (k', v) :: rest else (k', v') :: dictInsertJ rest k v

/-- Build a Python dict from key/value pairs in order (later duplicate keys
overwrite the value, keeping the first key's position), as `json.loads`
does for JSON objects. -/
def dictify (pairs : List (String × Json)) : List (String × Json) :=
  pairs.foldl (fun d kv => dictInsertJ d kv.1 kv.2) []

/-- Python `x.get(k, d)` where `x` is expected to be a dict: `AttributeError`
on any non-dict value. -/
def jGetD (v : Json) (k : String) (d : Json) : Except PyError Json :=
  match v with
  | .obj fs => .ok ((jLookup fs k).getD d)
  | _ => .error (.attributeError "get")

/-- Python `x.get(k)` (default `None` distinguished from an explicit `null`):
`AttributeError` on any non-dict value. -/
def jGetOpt (v : Json) (k : String) : Except PyError (Option Json) :=
  match v with
  | .obj fs => .ok (jLookup fs k)
  | _ => .error (.attributeError "get")

/-- Whether a JSON value decodes a Python dict carrying the given key. -/
def jHasKey (v : Json) (k : String) : Bool :=
  match v with
  | .obj fs => (jLookup fs k).isSome
  | _ => false

/-- Python iteration `for x in v`: arrays yield elements, strings yield
one-character strings, dicts yield their keys; other values raise
`TypeError`. -/
def pyIter : Json → Except PyError (List Json)
  | .arr l => .ok l
  | .str s => .ok (s.data.map fun c => .str (String.singleton c))
  | .obj fs => .ok (fs.map fun kv => .str kv.1)
  | _ => .error (.typeError "object is not iterable")

/-! ### Python string helpers -/

/-- JSON / Python-relevant whitespace (space, tab, newline, carriage return). -/
def isJsonWs (c : Char) : Bool := c = ' ' || c = '\t' || c = '\n' || c = '\r'

/-- Strip leading and trailing whitespace from a character list. -/
def stripL (l : List Char) : List Char :=
  ((l.dropWhile isJsonWs).reverse.dropWhile isJsonWs).reverse

/-- Python `s.strip()` (restricted to ASCII whitespace, which is all the
source ever strips in practice). -/
def pyStrip (s : String) : String := ⟨stripL s.data⟩

/-- Consume an exact literal prefix. -/
def dropLit : List Char → List Char → Option (List Char)
  | [], cs => some cs
  | l :: ls, c :: cs => if c = l then dropLit ls cs else none
  | _ :: _, [] => none

/-- Worker for `pySplit`: leftmost non-overlapping occurrences of `sep`;
the fuel (instantiated to more than the input length) only serves to make
the recursion structural. -/
def splitChAux (sep : List Char) : Nat → List Char → List Char → List (List Char)
  | 0, _, acc => [acc.reverse]
  | _ + 1, [], acc => [acc.reverse]
  | fuel + 1, c :: cs, acc =>
    match dropLit sep (c :: cs) with
    | some rest => acc.reverse :: splitChAux sep fuel rest []
    | none => splitChAux sep fuel cs (c :: acc)

/-- Python `s.split(sep)` for a non-empty separator. -/
def pySplit (s sep : String) : List String :=
  (splitChAux sep.data (s.data.length + 1) s.data []).map String.mk

/-- Python `sub in s` substring test, for a non-empty `sub`: `s.split(sub)`
has more than one part exactly when `sub` occurs in `s`. -/
def pyIn (sub s : String) : Bool := (pySplit s sub).length > 1

/-! ### A model of Python's `json.loads`

Recursive-descent decoder over the character list.  Numbers are restricted to
integers (a JSON fraction or exponent is left unconsumed, so such inputs fail
to decode; no input relevant to the claims contains one).  Error messages
follow Python in never embedding the document text, abbreviated to the
failure kind without line/column positions. -/

def qCh : Char := Char.ofNat 34

def bsCh : Char := Char.ofNat 92

def lbCh : Char := Char.ofNat 123

def rbCh : Char := Char.ofNat 125

def hexVal (c : Char) : Option Nat :=
  if 48 ≤ c.toNat && c.toNat ≤ 57 then some (c.toNat - 48)
  else if 97 ≤ c.toNat && c.toNat ≤ 102 then some (c.toNat - 87)
  else if 65 ≤ c.toNat && c.toNat ≤ 70 then some (c.toNat - 55)
  else none

/-- Decode a JSON string body after the opening quote; returns the contents
and the remaining characters after the closing quote. -/
def parseStringBody : List Char → List Char → Except String (String × List Char)
  | [], _ => .error "Unterminated string"
  | c :: cs, acc =>
    if c = qCh then .ok (String.mk acc.reverse, cs)
    else if c = bsCh then
      match cs with
      | [] => .error "Unterminated string"
      | e :: cs' =>
        if e = qCh then parseStringBody cs' (qCh :: acc)
        else if e = bsCh then parseStringBody cs' (bsCh :: acc)
        else if e = '/' then parseStringBody cs' ('/' :: acc)
        else if e = 'b' then parseStringBody cs' (Char.ofNat 8 :: acc)
        else if e = 'f' then parseStringBody cs' (Char.ofNat 12 :: acc)
        else if e = 'n' then parseStringBody cs' ('\n' :: acc)
        else if e = 'r' then parseStringBody cs' ('\r' :: acc)
        else if e = 't' then parseStringBody cs' ('\t' :: acc)
        else if e = 'u' then
          match cs' with
          | h1 :: h2 :: h3 :: h4 :: cs'' =>
            match hexVal h1, hexVal h2, hexVal h3, hexVal h4 with
            | some a, some b, some c2, some d =>
              parseStringBody cs'' (Char.ofNat (((a * 16 + b) * 16 + c2) * 16 + d) :: acc)
            | _, _, _, _ => .error "Invalid unicode escape"
          | _ => .error "Invalid unicode escape"
        else .error "Invalid escape"
    else if c.toNat < 32 then .error "Invalid control character"
    else parseStringBody cs (c :: acc)

def digitsToNat (ds : List Char) : Nat :=
  ds.foldl (fun a c => a * 10 + (c.toNat - 48)) 0

/-- Decode a JSON integer numeral (after any minus sign); a leading zero ends
the numeral immediately, as in Python's scanner. -/
def parseIntDigits : List Char → Except String (Nat × List Char)
  | [] => .error "Expecting value"
  | c :: rest =>
    if c = '0' then .ok (0, rest)
    else if c.isDigit then
      let (ds, r2) := rest.span (·.isDigit)
      .ok (digitsToNat (c :: ds), r2)
    else .error "Expecting value"

def skipWs (cs : List Char) : List Char := cs.dropWhile isJsonWs

mutual

def parseValue : Nat → List Char → Except String (Json × List Char)
  | 0, _ => .error "Expecting value"
  | fuel + 1, cs =>
    match skipWs cs with
    | [] => .error "Expecting value"
    | c :: rest =>
      if c = qCh then (parseStringBody rest []).map fun p => (.str p.1, p.2)
      else if c = '[' then
        let r2 := skipWs rest
        match r2 with
        | d :: r3 =>
          if d = ']' then .ok (.arr [], r3)
          else (parseElems fuel r2).map fun p => (.arr p.1, p.2)
        | [] => .error "Expecting value"
      else if c = lbCh then
        let r2 := skipWs rest
        match r2 with
        | d :: r3 =>
          if d = rbCh then .ok (.obj [], r3)
          else (parseFields fuel r2).map fun p => (.obj (dictify p.1), p.2)
        | [] => .error "Expecting property name"
      else if c = 't' then
        match dropLit ['r', 'u', 'e'] rest with
        | some r => .ok (.bool true, r)
        | none => .error "Expecting value"
      else if c = 'f' then
        match dropLit ['a', 'l', 's', 'e'] rest with
        | some r => .ok (.bool false, r)
        | none => .error "Expecting value"
      else if c = 'n' then
        match dropLit ['u', 'l', 'l'] rest with
        | some r => .ok (.null, r)
        | none => .error "Expecting value"
      else if c = '-' then
        (parseIntDigits rest).map fun p => (.num (-(p.1 : Int)), p.2)
      else if c.isDigit then
        (parseIntDigits (c :: rest)).map fun p => (.num ((p.1 : Int)), p.2)
      else .error "Expecting value"

def parseElems : Nat → List Char → Except String (List Json × List Char)
  | 0, _ => .error "Expecting value"
  | fuel + 1, cs => do
    let (v, r1) ← parseValue fuel cs
    match skipWs r1 with
    | c :: r2 =>
      if c = ',' then do
        let (vs, r3) ← parseElems fuel r2
        .ok (v :: vs, r3)
      else if c = ']' then .ok ([v], r2)
      else .error "Expecting comma delimiter"
    | [] => .error "Unterminated array"

def parseFields : Nat → List Char → Except String (List (String × Json) × List Char)
  | 0, _ => .error "Expecting value"
  | fuel + 1, cs =>
    match skipWs cs with
    | c :: r1 =>
      if c = qCh then do
        let (k, r2) ← parseStringBody r1 []
        match skipWs r2 with
        | d :: r3 =>
          if d = ':' then do
            let (v, r4) ← parseValue fuel r3
            match skipWs r4 with
            | e :: r5 =>
              if e = ',' then do
                let (fs, r6) ← parseFields fuel r5
                .ok ((k, v) :: fs, r6)
              else if e = rbCh then .ok ([(k, v)], r5)
              else .error "Expecting comma delimiter"
            | [] => .error "Unterminated object"
          else .error "Expecting colon delimiter"
        | [] => .error "Unterminated object"
      else .error "Expecting property name"
    | [] => .error "Expecting property name"

end

/-- Model of Python `json.loads`: leading/trailing whitespace tolerated, then
a single JSON value must span the whole text. -/
def json_loads (s : String) : Except String Json :=
  let cs := stripL s.data
  match parseValue (2 * cs.length + 2) cs with
  | .ok (v, rest) => if rest.isEmpty then .ok v else .error "Extra data"
  | .error e => .error e

/-- Python `str(name)` on the optional company name (`None` prints as
`"None"`). -/
def pyStrOfName : Option String → String
  | some s => s
  | none => "None"

/-- Python `s[:n]` on a string (slicing by code points). -/
def pyTake (s : String) (n : Nat) : String := ⟨s.data.take n⟩

/-! ### The HTML page template (`src/agents/schemas.py`, `HTML_TEMPLATE`) -/

def tc0 : String := "\n<!DOCTYPE html>\n<html lang=\"en\">\n<head>\n    <meta charset=\"UTF-8\">\n    <meta name=\"viewport\" content=\"width=device-width, initial-scale=1.0\">\n    <title>Competitor Analysis - "

def tc1 : String := "</title>\n    <style>\n        * \x7b margin: 0; padding: 0; box-sizing: border-box; \x7d\n        body \x7b \n            font-family: 'Segoe UI', Tahoma, Geneva, Verdana, sans-serif; \n            line-height: 1.6; \n            max-width: 1200px; \n            margin: 0 auto; \n            padding: 20px; \n            background-color: #f5f5f5; \n        \x7d\n        .header \x7b \n            background: linear-gradient(135deg, #667eea 0%, #764ba2 100%); \n            color: white; \n            padding: 40px 30px; \n            border-radius: 10px; \n            margin-bottom: 30px; \n            box-shadow: 0 4px 6px rgba(0,0,0,0.1);\n        \x7d\n        .header h1 \x7b font-size: 2.5em; margin-bottom: 10px; \x7d\n        .header h2 \x7b font-size: 1.8em; margin: 15px 0; border: none; color: white; \x7d\n        .header a \x7b color: white; text-decoration: underline; \x7d\n        .section \x7b \n            background: white; \n            padding: 30px; \n            margin-bottom: 20px; \n            border-radius: 8px; \n            box-shadow: 0 2px 4px rgba(0,0,0,0.1); \n        \x7d\n        h2 \x7b \n            color: #667eea; \n            border-bottom: 3px solid #667eea; \n            padding-bottom: 10px; \n            margin-bottom: 20px;\n        \x7d\n        h3 \x7b color: #764ba2; margin: 20px 0 10px 0; \x7d\n        .grid \x7b \n            display: grid; \n            grid-template-columns: repeat(auto-fit, minmax(280px, 1fr)); \n            gap: 20px; \n            margin: 20px 0;\n        \x7d\n        .card \x7b \n            background: #f8f9fa; \n            padding: 20px; \n            border-radius: 8px; \n            border-left: 4px solid #667eea; \n            transition: transform 0.2s;\n        \x7d\n        .card:hover \x7b transform: translateY(-2px); box-shadow: 0 4px 8px rgba(0,0,0,0.1); \x7d\n        .tag \x7b \n            display: inline-block; \n            background: #667eea; \n            color: white; \n            padding: 6px 12px; \n            border-radius: 20px; \n            margin: 5px; \n            font-size: 0.9em; \n        \x7d\n        .list-item \x7b \n            background: #f8f9fa; \n            padding: 15px; \n            margin: 10px 0; \n            border-radius: 5px; \n            border-left: 4px solid #28a745;\n        \x7d\n        .weakness \x7b border-left-color: #dc3545; \x7d\n        .news-item \x7b \n            background: #fff9e6; \n            border-left: 4px solid #ffc107; \n            padding: 20px; \n            margin: 15px 0; \n            border-radius: 5px; \n        \x7d\n        .news-item h3 \x7b margin-top: 0; \x7d\n        .meta \x7b opacity: 0.9; font-size: 0.95em; \x7d\n    </style>\n</head>\n<body>\n    <div class=\"header\">\n        <h1>🔍 Competitor Analysis Report</h1>\n        <h2>"

def tc2 : String := "</h2>\n        <div class=\"meta\">\n            <p><strong>Website:</strong> <a href=\""

def tc3 : String := "\" target=\"_blank\">"

def tc4 : String := "</a></p>\n            <p><strong>Analysis Date:</strong> "

def tc5 : String := "</p>\n        </div>\n    </div>\n\n    <div class=\"section\">\n        <h2>📋 Company Overview</h2>\n        <p><strong>Description:</strong> "

def tc6 : String := "</p>\n        <div class=\"grid\">\n            <div class=\"card\">\n                <h3>🏢 Founded</h3>\n                <p>"

def tc7 : String := "</p>\n            </div>\n            <div class=\"card\">\n                <h3>📍 Headquarters</h3>\n                <p>"

def tc8 : String := "</p>\n            </div>\n            <div class=\"card\">\n                <h3>👥 Company Size</h3>\n                <p>"

def tc9 : String := "</p>\n            </div>\n        </div>\n    </div>\n\n    <div class=\"section\">\n        <h2>🛍️ Products & Services</h2>\n        "

def tc10 : String := "\n    </div>\n\n    <div class=\"section\">\n        <h2>📊 Market Position</h2>\n        <p><strong>Target Market:</strong> "

def tc11 : String := "</p>\n        <p><strong>Market Share:</strong> "

def tc12 : String := "</p>\n        <h3>Key Competitors</h3>\n        <div>\n            "

def tc13 : String := "\n        </div>\n    </div>\n\n    <div class=\"section\">\n        <h2>⚡ SWOT Analysis</h2>\n        <div class=\"grid\">\n            <div>\n                <h3>💪 Strengths</h3>\n                "

def tc14 : String := "\n            </div>\n            <div>\n                <h3>⚠️ Weaknesses</h3>\n                "

def tc15 : String := "\n            </div>\n        </div>\n    </div>\n\n    <div class=\"section\">\n        <h2>📰 Recent News & Updates</h2>\n        "

def tc16 : String := "\n    </div>\n\n    <div class=\"section\">\n        <h2>💻 Technology & Pricing</h2>\n        <p><strong>Pricing Model:</strong> "

def tc17 : String := "</p>\n        <h3>Technology Stack</h3>\n        <div>\n            "

def tc18 : String := "\n        </div>\n    </div>\n\n    <div class=\"section\">\n        <h2>🌐 Social Media Presence</h2>\n        "

def tc19 : String := "\n    </div>\n</body>\n</html>\n"

/-- The 17 values substituted into `HTML_TEMPLATE` by `str.format`. -/
structure TemplateArgs where
  company_name : String
  website : String
  analysis_date : String
  description : String
  founded_year : String
  headquarters : String
  size : String
  products_html : String
  target_market : String
  market_share : String
  competitors_html : String
  strengths_html : String
  weaknesses_html : String
  news_html : String
  pricing_model : String
  tech_html : String
  social_html : String

/-- Model of `HTML_TEMPLATE.format(...)` from `src/agents/schemas.py`: the fixed
page template with the argument strings substituted in slot order. -/
def HTML_TEMPLATE_format (a : TemplateArgs) : String :=
  tc0 ++ a.company_name ++ tc1 ++ a.company_name ++ tc2 ++ a.website ++ tc3 ++ a.website ++ tc4 ++ a.analysis_date ++ tc5 ++ a.description ++ tc6 ++ a.founded_year ++ tc7 ++ a.headquarters ++ tc8 ++ a.size ++ tc9 ++ a.products_html ++ tc10 ++ a.target_market ++ tc11 ++ a.market_share ++ tc12 ++ a.competitors_html ++ tc13 ++ a.strengths_html ++ tc14 ++ a.weaknesses_html ++ tc15 ++ a.news_html ++ tc16 ++ a.pricing_model ++ tc17 ++ a.tech_html ++ tc18 ++ a.social_html ++ tc19

/-! ### The report renderer (`src/services/html_generator.py`) -/

/-- Python `data.get(k1, default1).get(k2, default2)` chain. -/
def jGet2D (data : Json) (k1 k2 : String) (d : Json) : Except PyError Json := do
  let o ← jGetD data k1 (.obj [])
  jGetD o k2 d

/-- Python `data.get(k1, default1).get(k2)` chain (inner default `None`). -/
def jGet2Opt (data : Json) (k1 k2 : String) : Except PyError (Option Json) := do
  let o ← jGetD data k1 (.obj [])
  jGetOpt o k2

/-- Python `x or "N/A"` followed by string conversion in the template:
`"N/A"` for an absent key (`.get` returned `None`) and for every falsy
value, the value's `str` otherwise. -/
def orNA : Option Json → String
  | none => "N/A"
  | some x => if pyTruthy x then pyStr x else "N/A"

/-- One card of `_format_products`' grid. -/
def productCard (product : Json) : Except PyError String := do
  let name ← jGetD product "name" (.str "N/A")
  let category ← jGetD product "category" (.str "N/A")
  let description ← jGetD product "description" (.str "No description available")
  .ok ("\n        <div class=\"card\">\n            <h3>" ++ pyStr name ++
    "</h3>\n            <p><strong>Category:</strong> " ++ pyStr category ++
    "</p>\n            <p>" ++ pyStr description ++ "</p>\n        </div>\n        ")

/-- Model of `_format_products`. -/
def _format_products (products : Json) : Except PyError String :=
  if pyTruthy products = false then .ok "<p>No product information available.</p>"
  else do
    let items ← pyIter products
    let frags ← items.mapM productCard
    .ok ("<div class=\"grid\">" ++ String.join frags ++ "</div>")

/-- One tag of `_format_competitors`. -/
def competitorTag (comp : Json) : String :=
  "<span class=\"tag\">" ++ pyStr comp ++ "</span>"

/-- Model of `_format_competitors`. -/
def _format_competitors (competitors : Json) : Except PyError String :=
  if pyTruthy competitors = false then .ok "<p>No competitor information available.</p>"
  else do
    let items ← pyIter competitors
    .ok (String.join (items.map competitorTag))

/-- One item of `_format_list_items`. -/
def listItemDiv (css_class : String) (item : Json) : String :=
  "<div class=\"" ++ css_class ++ "\">" ++ pyStr item ++ "</div>"

/-- Model of `_format_list_items`. -/
def _format_list_items (items : Json) (css_class : String) : Except PyError String :=
  if pyTruthy items = false then .ok "<p>No information available.</p>"
  else do
    let l ← pyIter items
    .ok (String.join (l.map (listItemDiv css_class)))

/-- One card of `_format_news`. -/
def newsCard (news : Json) : Except PyError String := do
  let title ← jGetD news "title" (.str "No Title")
  let date ← jGetD news "date" (.str "N/A")
  let source ← jGetD news "source" (.str "Unknown Source")
  let summary ← jGetD news "summary" (.str "No summary available")
  .ok ("\n        <div class=\"news-item\">\n            <h3>" ++ pyStr title ++
    "</h3>\n            <p class=\"meta\"><em>" ++ pyStr date ++ " ‚Ä¢ " ++ pyStr source ++
    "</em></p>\n            <p>" ++ pyStr summary ++ "</p>\n        </div>\n        ")

/-- Model of `_format_news`. -/
def _format_news (news_items : Json) : Except PyError String :=
  if pyTruthy news_items = false then .ok "<p>No recent news available.</p>"
  else do
    let items ← pyIter news_items
    let frags ← items.mapM newsCard
    .ok (String.join frags)

/-- One tag of `_format_tags`. -/
def techTag (item : Json) : String :=
  "<span class=\"tag\">" ++ pyStr item ++ "</span>"

/-- Model of `_format_tags`. -/
def _format_tags (items : Json) : Except PyError String :=
  if pyTruthy items = false then .ok "<p>No information available.</p>"
  else do
    let l ← pyIter items
    .ok (String.join (l.map techTag))

/-- The `platforms` table of `_format_social_media`, in iteration order. -/
def socialPlatforms : List (String × String × String) :=
  [("linkedin", "LinkedIn", "üíº"), ("twitter", "Twitter/X", "üê¶"),
   ("facebook", "Facebook", "üìò")]

/-- One list entry of `_format_social_media` (empty when the platform's URL
is absent or falsy). -/
def socialItem (social : List (String × Json)) (entry : String × String × String) : String :=
  match jLookup social entry.1 with
  | some url =>
    if pyTruthy url then
      "<li style=\"margin: 10px 0;\"><strong>" ++ entry.2.2 ++ " " ++ entry.2.1 ++
      ":</strong> <a href=\"" ++ pyStr url ++ "\" target=\"_blank\">" ++ pyStr url ++ "</a></li>"
    else ""
  | none => ""

/-- Model of `_format_social_media`. -/
def _format_social_media (social : Json) : Except PyError String :=
  if pyTruthy social = false then .ok "<p>No social media information available.</p>"
  else
    match social with
    | .obj fs =>
      if (fs.map (·.2)).any pyTruthy = false then
        .ok "<p>No social media information available.</p>"
      else
        .ok ("<ul style='list-style: none; padding: 0;'>" ++
          String.join (socialPlatforms.map (socialItem fs)) ++ "</ul>")
    | _ => .error (.attributeError "values")

/-- The argument record handed to `HTML_TEMPLATE.format` by
`format_html_from_json`, computed in source order; `today` stands for
`datetime.now().strftime("%Y-%m-%d")`, read only when `analysis_date` is
absent. -/
def format_html_args (data : Json) (today : String) : Except PyError TemplateArgs := do
  let products ← jGetD data "products_services" (.arr [])
  let products_html ← _format_products products
  let kc ← jGet2D data "market_position" "key_competitors" (.arr [])
  let competitors_html ← _format_competitors kc
  let strengths ← jGetD data "strengths" (.arr [])
  let strengths_html ← _format_list_items strengths "list-item"
  let weaknesses ← jGetD data "weaknesses" (.arr [])
  let weaknesses_html ← _format_list_items weaknesses "list-item weakness"
  let news ← jGetD data "recent_news" (.arr [])
  let news_html ← _format_news news
  let tech ← jGetD data "technology_stack" (.arr [])
  let tech_html ← _format_tags tech
  let social ← jGetD data "social_media_presence" (.obj [])
  let social_html ← _format_social_media social
  let company_name ← jGetD data "company_name" (.str "Unknown Company")
  let website ← jGetD data "website" (.str "#")
  let analysis_date ← jGetD data "analysis_date" (.str today)
  let description ← jGet2D data "overview" "description" (.str "No description available")
  let founded_year ← jGet2Opt data "overview" "founded_year"
  let headquarters ← jGet2Opt data "overview" "headquarters"
  let size ← jGet2Opt data "overview" "size"
  let target_market ← jGet2D data "market_position" "target_market" (.str "N/A")
  let market_share ← jGet2Opt data "market_position" "market_share"
  let pricing_model ← jGetOpt data "pricing_model"
  .ok {
    company_name := pyStr company_name
    website := pyStr website
    analysis_date := pyStr analysis_date
    description := pyStr description
    founded_year := orNA founded_year
    headquarters := orNA headquarters
    size := orNA size
    products_html := products_html
    target_market := pyStr target_market
    market_share := orNA market_share
    competitors_html := competitors_html
    strengths_html := strengths_html
    weaknesses_html := weaknesses_html
    news_html := news_html
    pricing_model := orNA pricing_model
    tech_html := tech_html
    social_html := social_html }

/-- Model of `format_html_from_json`: populate the fixed template with the
computed arguments (a raised exception is an `.error`). -/
def format_html_from_json (data : Json) (today : String) : Except PyError String :=
  (format_html_args data today).map HTML_TEMPLATE_format

/-! ### The pipelines (`src/pipelines/competitor_pipeline.py`) -/

/-- Ambient effects of the pipelines: the external generation capability
(`Runner.run`, which may raise) and the current date string
(`datetime.now().strftime("%Y-%m-%d")`). -/
structure Env where
  generate : String → Except PyError String
  today : String

/-- Model of `OptimizedCompetitorAnalysisPipeline._create_prompt`. -/
def _create_prompt (env : Env) (website : String) (name : Option String) : String :=
  pyStrip ("\nAnalyze the competitor at: " ++ website ++ "\n" ++
    (match name with
     | some s => if s = "" then "" else "Company Name: " ++ s
     | none => "") ++
    "\n\nSearch for comprehensive information and return structured JSON data.\nCurrent date: " ++
    env.today ++
    "\n\nFocus on gathering accurate, verifiable information from reliable sources.\n        ")

/-- Fenced-block extraction, shared verbatim by the single-mode parser
(`_parse_response`, lines 106-111) and the batch parser
(`_parse_batch_response`, lines 239-244): the text between the first fence
marker pair, or the whole text when no marker occurs. -/
def extractFenced (response_text : String) : String :=
  if pyIn "```json" response_text then
    (pySplit ((pySplit response_text "```json").getD 1 "") "```").getD 0 ""
  else if pyIn "```" response_text then
    (pySplit ((pySplit response_text "```").getD 1 "") "```").getD 0 ""
  else response_text

/-- Diagnostics printed to stdout and the exception raised when
`_parse_response` fails. -/
structure ParseFailure where
  printed : List String
  raised : PyError
deriving DecidableEq

/-- Model of `OptimizedCompetitorAnalysisPipeline._parse_response`: direct
decode, then fenced-block (or trimmed full-text) decode; on failure the
raw-text preview is printed and a `ValueError` wrapping the decode error is
raised. -/
def _parse_response (response_text : String) : Except ParseFailure Json :=
  match json_loads response_text with
  | .ok v => .ok v
  | .error _ =>
    match json_loads (pyStrip (extractFenced response_text)) with
    | .ok v => .ok v
    | .error e =>
      .error {
        printed := ["❌ Error parsing response: " ++ e,
                    "Raw response preview: " ++ pyTake response_text 500 ++ "..."],
        raised := .valueError ("Failed to parse agent response: " ++ e) }

/-- Model of `OptimizedCompetitorAnalysisPipeline.analyze_competitor`:
prompt, one generation call, parse, render. -/
def analyze_competitor (env : Env) (company_website : String)
    (company_name : Option String) : Except PyError String := do
  let response ← env.generate (_create_prompt env company_website company_name)
  match _parse_response response with
  | .error f => .error f.raised
  | .ok structured_data => format_html_from_json structured_data env.today

/-- Model of `BatchOptimizedPipeline._create_batch_prompt`. -/
def _create_batch_prompt (env : Env) (companies : List (String × Option String)) : String :=
  let companies_list := String.intercalate "\n"
    ((companies.enum).map fun p =>
      toString (p.1 + 1) ++ ". " ++ pyStrOfName p.2.2 ++ " - " ++ p.2.1)
  pyStrip ("\nAnalyze these " ++ toString companies.length ++
    " competitors and return a JSON array with complete analysis for each.\n\nCompanies to analyze:\n" ++
    companies_list ++
    "\n\nReturn a JSON ARRAY (not an object) where each element is a complete competitor analysis.\nEach element must follow the exact schema provided in your instructions.\n\nOutput format:\n[\n  \x7b...complete data for company 1...\x7d,\n  \x7b...complete data for company 2...\x7d,\n  \x7b...complete data for company 3...\x7d\n]\n\nCRITICAL: \n- Output ONLY the JSON array, no markdown, no explanations\n- Each company must have complete data\n- Maintain consistent structure across all entries\n\nCurrent date: " ++
    env.today ++ "\n        ")

/-- Model of `BatchOptimizedPipeline._parse_batch_response`: fenced-block (or
trimmed full-text) decode — with no direct-decode stage — followed by the
list type check. -/
def _parse_batch_response (response_text : String) : Except PyError (List Json) :=
  match json_loads (pyStrip (extractFenced response_text)) with
  | .error m => .error (.jsonDecodeError m)
  | .ok (.arr l) => .ok l
  | .ok _ => .error (.valueError "Response is not a JSON array")

/-- Python dict keys occurring in the pipeline: the hashable scalars (an
array or dict used as a key raises `TypeError` first). -/
inductive PyKey where
  | none_
  | bool (b : Bool)
  | num (n : Int)
  | str (s : String)
deriving DecidableEq

/-- Using a decoded JSON value as a Python dict key. -/
def toKey : Json → Except PyError PyKey
  | .null => .ok .none_
  | .bool b => .ok (.bool b)
  | .num n => .ok (.num n)
  | .str s => .ok (.str s)
  | _ => .error (.typeError "unhashable type")

/-- The dict key used by the fallback loop: the company name exactly as
passed (`None` stays `None`; it is never replaced by the website). -/
def keyOfName : Option String → PyKey
  | some s => .str s
  | none => .none_

/-- The `results` dictionary: insertion-ordered key/value pairs. -/
abbrev PyDict := List (PyKey × String)

/-- Python `results[k] = v`: update in place if the key exists, else append. -/
def pyDictInsert (d : PyDict) (k : PyKey) (v : String) : PyDict :=
  match d with
  | [] => [(k, v)]
  | (k', v') :: rest =>
    if k' = k then (k', v) :: rest else (k', v') :: pyDictInsert rest k v

/-- Lookup in the `results` dictionary. -/
def pyDictLookup (d : PyDict) (k : PyKey) : Option String :=
  match d with
  | [] => none
  | (k', v) :: rest => if k' = k then some v else pyDictLookup rest k

/-- Model of `BatchOptimizedPipeline._create_error_report`. -/
def _create_error_report (company_name : String) (error : String) : String :=
  "\n        <html>\n        <head><title>Analysis Failed - " ++ company_name ++
  "</title></head>\n        <body>\n            <h1>Analysis Failed</h1>\n            <p><strong>Company:</strong> " ++
  company_name ++ "</p>\n            <p><strong>Error:</strong> " ++ error ++
  "</p>\n        </body>\n        </html>\n        "

/-- One iteration of the fallback loop: the rendered report, or the error
report built from the company name and `str(e)` when anything was raised. -/
def fallbackItem (env : Env) (url : String) (name : Option String) : String :=
  match analyze_competitor env url name with
  | .ok html => html
  | .error e => _create_error_report (pyStrOfName name) e.message

/-- Model of `BatchOptimizedPipeline._fallback_individual_analysis`: every
input processed in order through the single-item path, each failure replaced
by an error report — this function is total, no exception escapes it. -/
def _fallback_individual_analysis (env : Env)
    (companies : List (String × Option String)) : PyDict :=
  companies.foldl (fun results c => pyDictInsert results (keyOfName c.2) (fallbackItem env c.1 c.2)) []

/-- Model of `BatchOptimizedPipeline._calculate_savings`: integer result of
Python's `int(((n - 1) / n) * 100)` (float quotient, then truncation), and
`n = 0` raises `ZeroDivisionError` just as `(0 - 1) / 0` does. -/
def _calculate_savings (num_companies : Nat) : Except PyError Int :=
  if num_companies = 0 then .error .zeroDivisionError
  else .ok (((num_companies - 1) * 100 : Nat) / num_companies)

/-- The success-path loop of `analyze_multiple_competitors`: one report per
element of the parsed batch array, keyed by each element's own
`company_name` field (defaulting to `"Unknown"`); exceptions propagate. -/
def buildBatchResults (today : String) : List Json → PyDict → Except PyError PyDict
  | [], results => .ok results
  | data :: rest, results => do
    let cname ← jGetD data "company_name" (.str "Unknown")
    let html ← format_html_from_json data today
    let key ← toKey cname
    buildBatchResults today rest (pyDictInsert results key html)

/-- Model of `BatchOptimizedPipeline.analyze_multiple_competitors`: the
savings banner (which divides by the input count) runs first, then one batch
generation call; a batch-parse failure of any kind degrades to the fallback
path, and a success builds one report per array element. -/
def analyze_multiple_competitors (env : Env)
    (companies : List (String × Option String)) : Except PyError PyDict := do
  let _ ← _calculate_savings companies.length
  let response ← env.generate (_create_batch_prompt env companies)
  match _parse_batch_response response with
  | .error _ => .ok (_fallback_individual_analysis env companies)
  | .ok batch_data => do
    let results ← buildBatchResults env.today batch_data []
    let _ ← _calculate_savings companies.length
    .ok results

/-! ### Derived total forms and concrete inputs used by the statements -/

/-- Whether a JSON value is an object (a decoded Python dict). -/
def isObjJson : Json → Bool
  | .obj _ => true
  | _ => false

/-- The product card rendered for an object element (the restriction of
`productCard` to the inputs on which it cannot raise). -/
def productCardStr (p : Json) : String :=
  match p with
  | .obj pf =>
    "\n        <div class=\"card\">\n            <h3>" ++
    pyStr ((jLookup pf "name").getD (.str "N/A")) ++
    "</h3>\n            <p><strong>Category:</strong> " ++
    pyStr ((jLookup pf "category").getD (.str "N/A")) ++
    "</p>\n            <p>" ++
    pyStr ((jLookup pf "description").getD (.str "No description available")) ++
    "</p>\n        </div>\n        "
  | _ => ""

/-- The news card rendered for an object element (the restriction of
`newsCard` to the inputs on which it cannot raise). -/
def newsCardStr (p : Json) : String :=
  match p with
  | .obj nf =>
    "\n        <div class=\"news-item\">\n            <h3>" ++
    pyStr ((jLookup nf "title").getD (.str "No Title")) ++
    "</h3>\n            <p class=\"meta\"><em>" ++
    pyStr ((jLookup nf "date").getD (.str "N/A")) ++ " ‚Ä¢ " ++
    pyStr ((jLookup nf "source").getD (.str "Unknown Source")) ++
    "</em></p>\n            <p>" ++
    pyStr ((jLookup nf "summary").getD (.str "No summary available")) ++
    "</p>\n        </div>\n        "
  | _ => ""

/-- A field that is `null` or absent in the source JSON (`.get` returned
`None` either because the key is missing or because it maps to `null`). -/
def nullOrAbsent : Option Json → Bool
  | none => true
  | some .null => true
  | some _ => false

/-- The template arguments produced for the empty record `{}`: every slot a
placeholder, except `analysis_date`, which takes the current date `t`. -/
def emptyRecordArgs (t : String) : TemplateArgs := {
  company_name := "Unknown Company", website := "#", analysis_date := t,
  description := "No description available", founded_year := "N/A",
  headquarters := "N/A", size := "N/A",
  products_html := "<p>No product information available.</p>",
  target_market := "N/A", market_share := "N/A",
  competitors_html := "<p>No competitor information available.</p>",
  strengths_html := "<p>No information available.</p>",
  weaknesses_html := "<p>No information available.</p>",
  news_html := "<p>No recent news available.</p>",
  pricing_model := "N/A",
  tech_html := "<p>No information available.</p>",
  social_html := "<p>No social media information available.</p>" }

/-- A record carrying an `analysis_date`, for the determinism witness. -/
def dataC1 : Json := .obj [("analysis_date", .str "2025-12-31")]

/-- The overview dict of `data3`. -/
def ov3 : List (String × Json) := [("description", .null), ("founded_year", .null)]

/-- The market-position dict of `data3`. -/
def mp3 : List (String × Json) := [("target_market", .null), ("market_share", .null)]

/-- The top-level fields of `data3`. -/
def fs3 : List (String × Json) :=
  [("overview", .obj ov3), ("market_position", .obj mp3), ("pricing_model", .null)]

/-- A record whose `description` and `target_market` are present but `null`,
and whose five truthiness-guarded scalars are `null` or absent. -/
def data3 : Json := .obj fs3

/-- The template arguments the renderer computes for `data3`: Python's
`None` lands verbatim in the description and target-market slots. -/
def argsD3 : TemplateArgs := {
  company_name := "Unknown Company", website := "#", analysis_date := "2026-02-03",
  description := "None", founded_year := "N/A", headquarters := "N/A", size := "N/A",
  products_html := "<p>No product information available.</p>",
  target_market := "None", market_share := "N/A",
  competitors_html := "<p>No competitor information available.</p>",
  strengths_html := "<p>No information available.</p>",
  weaknesses_html := "<p>No information available.</p>",
  news_html := "<p>No recent news available.</p>",
  pricing_model := "N/A",
  tech_html := "<p>No information available.</p>",
  social_html := "<p>No social media information available.</p>" }

/-- The overview dict of `data10`. -/
def ov10 : List (String × Json) :=
  [("founded_year", .num 0), ("headquarters", .str ""), ("size", .str "")]

/-- The market-position dict of `data10`. -/
def mp10 : List (String × Json) := [("market_share", .str "")]

/-- The top-level fields of `data10`. -/
def fs10 : List (String × Json) :=
  [("overview", .obj ov10), ("market_position", .obj mp10), ("pricing_model", .str "")]

/-- A record whose five truthiness-guarded scalars are falsy but not null:
`founded_year = 0` and empty strings. -/
def data10 : Json := .obj fs10

/-- The template arguments the renderer computes for `data10`: all five
falsy scalars substituted by `"N/A"`. -/
def args10 : TemplateArgs := {
  company_name := "Unknown Company", website := "#", analysis_date := "2026-02-03",
  description := "No description available", founded_year := "N/A",
  headquarters := "N/A", size := "N/A",
  products_html := "<p>No product information available.</p>",
  target_market := "N/A", market_share := "N/A",
  competitors_html := "<p>No competitor information available.</p>",
  strengths_html := "<p>No information available.</p>",
  weaknesses_html := "<p>No information available.</p>",
  news_html := "<p>No recent news available.</p>",
  pricing_model := "N/A",
  tech_html := "<p>No information available.</p>",
  social_html := "<p>No social media information available.</p>" }

/-- A plain-prose generation response: not JSON at any extraction stage. -/
def t5 : String := "The analysis service returned an apology instead of data."

/-- The failure `_parse_response` produces on `t5`. -/
def f5 : ParseFailure := {
  printed := ["❌ Error parsing response: Expecting value",
              "Raw response preview: " ++ t5 ++ "..."],
  raised := .valueError "Failed to parse agent response: Expecting value" }

/-- A response that is itself a JSON array yet contains a fence marker. -/
def t8 : String := "[\"a```json[2]```b\"]"

/-- An environment whose generation capability always returns a fixed
non-JSON text and whose clock reads 2026-02-03. -/
def env0 : Env := { generate := fun _ => .ok "no array here", today := "2026-02-03" }

/-- The two-element input list of the end-to-end scenario. -/
def companies2 : List (String × Option String) :=
  [("https://a.com", some "A"), ("https://b.com", some "B")]

/-- A two-element input list whose display names collide. -/
def companiesDup : List (String × Option String) :=
  [("https://a.com", some "A"), ("https://b.com", some "A")]

/-- A one-element input list with distinct identifier and display name. -/
def companiesF : List (String × Option String) :=
  [("https://acme.example", some "AcmeCo")]

/-- The error page the fallback stores for `companiesF` under `env0`. -/
def pageF : String :=
  _create_error_report "AcmeCo" "Failed to parse agent response: Expecting value"

/-- A two-element product list (object elements, given in a fixed order). -/
def l7 : List Json :=
  [.obj [("name", .str "Checkout"), ("category", .str "Payments"),
         ("description", .str "Hosted checkout")],
   .obj [("name", .str "Billing"), ("category", .str "Payments"),
         ("description", .str "Recurring billing")]]

/-! ## Helper lemmas -/

lemma ex_bind_ok {ε α β : Type} (a : α) (f : α → Except ε β) :
    (Except.ok a : Except ε α) >>= f = f a := rfl

lemma ex_bind_error {ε α β : Type} (e : ε) (f : α → Except ε β) :
    (Except.error e : Except ε α) >>= f = .error e := rfl

lemma mapM_ok_of {ε α β : Type} (f : α → Except ε β) (g : α → β) :
    ∀ l : List α, (∀ a ∈ l, f a = .ok (g a)) → l.mapM f = .ok (l.map g) := by
  intro l
  induction l with
  | nil => intro _; rfl
  | cons a l ih =>
    intro h
    rw [List.mapM_cons, h a (List.mem_cons_self a l), ih (fun b hb => h b (List.mem_cons_of_mem a hb))]
    rfl

lemma productCard_obj (pf : List (String × Json)) :
    productCard (.obj pf) = .ok (productCardStr (.obj pf)) := rfl

lemma newsCard_obj (nf : List (String × Json)) :
    newsCard (.obj nf) = .ok (newsCardStr (.obj nf)) := rfl

lemma stripL_eq_rdrop (l : List Char) :
    stripL l = List.rdropWhile isJsonWs (l.dropWhile isJsonWs) := rfl

lemma dropWhile_head_not {α : Type} (p : α → Bool) (b : α) (r : List α) :
    ∀ l : List α, l.dropWhile p = b :: r → p b = false := by
  intro l
  induction l with
  | nil => intro h; simp at h
  | cons a l ih =>
    intro h
    rw [List.dropWhile_cons] at h
    by_cases hp : p a = true
    · rw [if_pos hp] at h; exact ih h
    · rw [if_neg hp] at h
      obtain ⟨rfl, -⟩ := List.cons.inj h
      simpa using hp

lemma dropWhile_stripL (l : List Char) :
    (stripL l).dropWhile isJsonWs = stripL l := by
  rw [stripL_eq_rdrop]
  obtain ⟨t, ht⟩ := List.rdropWhile_prefix isJsonWs (l.dropWhile isJsonWs)
  cases hBc : List.rdropWhile isJsonWs (l.dropWhile isJsonWs) with
  | nil => simp
  | cons b B' =>
    rw [hBc] at ht
    have hd : l.dropWhile isJsonWs = b :: (B' ++ t) := by rw [← ht]; simp
    have hw : isJsonWs b = false := dropWhile_head_not isJsonWs b (B' ++ t) l hd
    simp [List.dropWhile_cons, hw]

lemma stripL_idem (l : List Char) : stripL (stripL l) = stripL l := by
  rw [stripL_eq_rdrop (stripL l), dropWhile_stripL, stripL_eq_rdrop l,
    List.rdropWhile_idempotent]

lemma json_loads_pyStrip (s : String) : json_loads (pyStrip s) = json_loads s := by
  have h : (pyStrip s).data = stripL s.data := rfl
  unfold json_loads
  rw [h, stripL_idem]

lemma render_empty (t : String) :
    format_html_from_json (Json.obj []) t = .ok (HTML_TEMPLATE_format (emptyRecordArgs t)) := rfl

lemma template_date_inj (s t : String)
    (h : HTML_TEMPLATE_format (emptyRecordArgs s) = HTML_TEMPLATE_format (emptyRecordArgs t)) :
    s = t := by
  have h2 := congrArg String.data h
  simp only [HTML_TEMPLATE_format, emptyRecordArgs, String.data_append, List.append_assoc] at h2
  replace h2 := List.append_cancel_left h2
  replace h2 := List.append_cancel_left h2
  replace h2 := List.append_cancel_left h2
  replace h2 := List.append_cancel_left h2
  replace h2 := List.append_cancel_left h2
  replace h2 := List.append_cancel_left h2
  replace h2 := List.append_cancel_left h2
  replace h2 := List.append_cancel_left h2
  replace h2 := List.append_cancel_left h2
  exact String.ext (List.append_cancel_right h2)

/-! ## The claims -/

/-- C1, corrected. The renderer is clock-independent — hence deterministic —
for every record in which `analysis_date` is present: the `today` parameter
(the single external input, `datetime.now()`) does not influence the output. -/
theorem renderer_deterministic_of_analysis_date_present
    (data : Json) (t₁ t₂ : String) (h : jHasKey data "analysis_date" = true) :
    format_html_from_json data t₁ = format_html_from_json data t₂ := by
  cases data with
  | obj fs =>
    simp only [jHasKey] at h
    obtain ⟨v, hv⟩ := Option.isSome_iff_exists.mp h
    simp only [format_html_from_json, format_html_args, jGetD, hv, Option.getD_some]
  | null => simp [jHasKey] at h
  | bool b => simp [jHasKey] at h
  | num n => simp [jHasKey] at h
  | str s => simp [jHasKey] at h
  | arr l => simp [jHasKey] at h

/-- C1, witness: a record carrying `analysis_date` renders byte-identically
under two different clock readings. -/
theorem renderer_deterministic_witness :
    jHasKey dataC1 "analysis_date" = true ∧
    format_html_from_json dataC1 "2026-02-03" = format_html_from_json dataC1 "2026-02-04" :=
  ⟨by decide,
   renderer_deterministic_of_analysis_date_present dataC1 "2026-02-03" "2026-02-04" (by decide)⟩

/-- C1, counterexample. Rendering the empty record — `analysis_date` absent —
on two different days yields different HTML: the renderer reads the system
clock, so it is not deterministic as claimed. -/
theorem renderer_not_deterministic_without_date :
    format_html_from_json (Json.obj []) "2026-01-01" ≠ format_html_from_json (Json.obj []) "2026-01-02" := by
  intro h
  rw [render_empty, render_empty] at h
  have h2 := template_date_inj _ _ (Except.ok.inj h)
  simp at h2

/-- C9, confirmed. On the empty input list the batch orchestrator raises
`ZeroDivisionError` inside the savings banner, for every environment — in
particular the result does not depend on the generation capability, which is
never consulted — instead of returning an empty mapping. -/
theorem batch_empty_input_zero_division (env : Env) :
    analyze_multiple_competitors env [] = .error .zeroDivisionError := rfl

/-- C5, corrected. When every extraction stage fails, `_parse_response`
prints a diagnostic that carries the first-500-character preview of the raw
text, and raises a `ValueError` that wraps only the decode error message —
the preview is printed, not carried by the raised error. -/
theorem parse_error_preview_printed (t : String) (f : ParseFailure)
    (h : _parse_response t = .error f) :
    ("Raw response preview: " ++ pyTake t 500 ++ "...") ∈ f.printed ∧
    ∃ e, json_loads (pyStrip (extractFenced t)) = .error e ∧
      f.printed = ["❌ Error parsing response: " ++ e,
                   "Raw response preview: " ++ pyTake t 500 ++ "..."] ∧
      f.raised = .valueError ("Failed to parse agent response: " ++ e) := by
  unfold _parse_response at h
  cases h1 : json_loads t with
  | ok v => rw [h1] at h; exact absurd h (by simp)
  | error e1 =>
    rw [h1] at h
    cases h2 : json_loads (pyStrip (extractFenced t)) with
    | ok v => rw [h2] at h; exact absurd h (by simp)
    | error e2 =>
      rw [h2] at h
      obtain rfl := (Except.error.inj h).symm
      exact ⟨by simp, e2, rfl, rfl, rfl⟩

/-- C5, witness: the plain-prose response `t5` fails every stage and produces
exactly the printed preview and the wrapped `ValueError`. -/
theorem parse_error_preview_printed_witness :
    ("Raw response preview: " ++ pyTake t5 500 ++ "...") ∈ f5.printed ∧
    ∃ e, json_loads (pyStrip (extractFenced t5)) = .error e ∧
      f5.printed = ["❌ Error parsing response: " ++ e,
                    "Raw response preview: " ++ pyTake t5 500 ++ "..."] ∧
      f5.raised = .valueError ("Failed to parse agent response: " ++ e) :=
  parse_error_preview_printed t5 f5 (by rfl)

/-- C5, counterexample. On `t5` the parser's raised error does not contain
the 500-character preview of the raw text (the preview appears only in the
printed diagnostics): the claim that the raised parse error includes the
preview is false. -/
theorem parse_error_raised_lacks_preview :
    _parse_response t5 = .error f5 ∧ pyIn (pyTake t5 500) f5.raised.message = false := by
  constructor
  · rfl
  · decide

/-- C6, confirmed. A batch response decoding to a non-array raises
`ValueError "Response is not a JSON array"`, malformed JSON raises a
`JSONDecodeError` — two distinct errors — and any batch-parse error makes
the orchestrator return the fallback results instead of raising. -/
theorem batch_non_array_type_error (t : String) (v : Json)
    (hv : json_loads (pyStrip (extractFenced t)) = .ok v)
    (hnl : ∀ l, v ≠ .arr l) :
    _parse_batch_response t = .error (.valueError "Response is not a JSON array") ∧
    (∀ t' m, json_loads (pyStrip (extractFenced t')) = .error m →
      _parse_batch_response t' = .error (.jsonDecodeError m)) ∧
    (∀ m, (PyError.valueError "Response is not a JSON array") ≠ .jsonDecodeError m) ∧
    (∀ env companies resp pe, companies ≠ [] →
      env.generate (_create_batch_prompt env companies) = .ok resp →
      _parse_batch_response resp = .error pe →
      analyze_multiple_competitors env companies = .ok (_fallback_individual_analysis env companies)) := by
  refine ⟨?_, ?_, ?_, ?_⟩
  · unfold _parse_batch_response
    rw [hv]
    cases v with
    | arr l => exact absurd rfl (hnl l)
    | null => rfl
    | bool b => rfl
    | num n => rfl
    | str s => rfl
    | obj fs => rfl
  · intro t' m hm
    unfold _parse_batch_response
    rw [hm]
  · intro m h
    simp at h
  · intro env companies resp pe hne hgen hparse
    unfold analyze_multiple_competitors
    have hlen : companies.length ≠ 0 := fun h0 => hne (List.length_eq_zero.mp h0)
    simp only [_calculate_savings, if_neg hlen, ex_bind_ok, hgen, hparse]

/-- C6, witness: a top-level JSON object triggers the distinct type error. -/
theorem batch_non_array_type_error_witness :
    _parse_batch_response "\x7b\"a\": 1\x7d" = .error (.valueError "Response is not a JSON array") :=
  (batch_non_array_type_error "\x7b\"a\": 1\x7d" (.obj [("a", .num 1)]) (by rfl)
    (by intro l h; simp at h)).1

/-- C8, corrected. For a response containing no fence marker that the
single-mode parser decodes to a JSON array, the batch parser returns the
same array; the fence-marker restriction is forced because the batch parser
skips the single parser's initial direct-decode stage. -/
theorem batch_parser_agrees_without_fences (t : String) (xs : List Json)
    (hnj : pyIn "```json" t = false) (hnf : pyIn "```" t = false)
    (hs : _parse_response t = .ok (.arr xs)) :
    _parse_batch_response t = .ok xs := by
  have hext : extractFenced t = t := by
    unfold extractFenced
    rw [hnj, hnf]
    simp
  unfold _parse_response at hs
  rw [hext] at hs
  unfold _parse_batch_response
  rw [hext]
  cases h1 : json_loads t with
  | ok v =>
    rw [h1] at hs
    simp only [Except.ok.injEq] at hs
    subst hs
    rw [json_loads_pyStrip, h1]
  | error e1 =>
    rw [h1] at hs
    simp only at hs
    cases h2 : json_loads (pyStrip t) with
    | ok v =>
      rw [h2] at hs
      simp only [Except.ok.injEq] at hs
      subst hs
      rfl
    | error e2 => rw [h2] at hs; simp at hs

/-- C8, witness: a fence-free array response is decoded identically by both
parsers. -/
theorem batch_parser_agrees_witness :
    _parse_batch_response " [1, 2] " = .ok [.num 1, .num 2] :=
  batch_parser_agrees_without_fences " [1, 2] " [.num 1, .num 2]
    (by decide) (by decide) (by rfl)

/-- C8, counterexample. The response `t8` is itself a JSON array (which the
single-mode parser returns via its direct-decode stage), yet the batch
parser — which skips that stage — extracts the fenced fragment instead and
returns a different array: the two parsers do not follow the same
extraction algorithm. -/
theorem batch_parser_skips_direct_decode :
    _parse_response t8 = .ok (.arr [.str "a```json[2]```b"]) ∧
    _parse_batch_response t8 = .ok [.num 2] ∧
    Json.arr [.str "a```json[2]```b"] ≠ Json.arr [.num 2] := by
  refine ⟨by rfl, by rfl, by simp⟩

lemma pyDictInsert_fresh (d : PyDict) (k : PyKey) (v : String)
    (h : k ∉ d.map Prod.fst) : pyDictInsert d k v = d ++ [(k, v)] := by
  induction d with
  | nil => rfl
  | cons p rest ih =>
    obtain ⟨k', v'⟩ := p
    simp only [List.map_cons, List.mem_cons] at h
    push_neg at h
    rw [pyDictInsert, if_neg (fun he => h.1 he.symm), ih h.2]
    simp

lemma fallback_foldl (env : Env) (companies : List (String × Option String)) :
    ∀ acc : PyDict, (companies.map fun c => keyOfName c.2).Nodup →
      (∀ c ∈ companies, keyOfName c.2 ∉ acc.map Prod.fst) →
      List.foldl (fun results c => pyDictInsert results (keyOfName c.2) (fallbackItem env c.1 c.2)) acc companies
        = acc ++ companies.map fun c => (keyOfName c.2, fallbackItem env c.1 c.2) := by
  induction companies with
  | nil => intro acc _ _; simp
  | cons c rest ih =>
    intro acc hnd hdisj
    simp only [List.map_cons, List.nodup_cons] at hnd
    rw [List.foldl_cons, pyDictInsert_fresh acc _ _ (hdisj c (List.mem_cons_self c rest)),
      ih _ hnd.2 ?fresh]
    · simp
    case fresh =>
      intro c' hc'
      simp only [List.map_append, List.map_cons, List.map_nil, List.mem_append,
        List.mem_singleton, not_or]
      refine ⟨hdisj c' (List.mem_cons_of_mem c hc'), fun he => ?_⟩
      exact hnd.1 (he ▸ List.mem_map.mpr ⟨c', hc', rfl⟩)

lemma fallback_eq_map (env : Env) (companies : List (String × Option String))
    (hnd : (companies.map fun c => keyOfName c.2).Nodup) :
    _fallback_individual_analysis env companies
      = companies.map fun c => (keyOfName c.2, fallbackItem env c.1 c.2) := by
  unfold _fallback_individual_analysis
  rw [fallback_foldl env companies [] hnd (by simp)]
  simp

lemma pyDictLookup_map_of_mem (env : Env) (companies : List (String × Option String))
    (url : String) (name : Option String)
    (hnd : (companies.map fun c => keyOfName c.2).Nodup)
    (hmem : (url, name) ∈ companies) :
    pyDictLookup (companies.map fun c => (keyOfName c.2, fallbackItem env c.1 c.2)) (keyOfName name)
      = some (fallbackItem env url name) := by
  induction companies with
  | nil => cases hmem
  | cons c rest ih =>
    simp only [List.map_cons, List.nodup_cons] at hnd
    rcases List.mem_cons.mp hmem with h | h
    · rw [← h]
      simp [pyDictLookup]
    · have hne : keyOfName c.2 ≠ keyOfName name := by
        intro he
        exact hnd.1 (he ▸ List.mem_map.mpr ⟨(url, name), h, rfl⟩)
      rw [List.map_cons, pyDictLookup, if_neg hne]
      exact ih hnd.2 h

/-- C2, corrected. Once the batch response fails to parse as an array, the
orchestrator returns — with no exception — one entry per distinct
display-name value, keyed by the display-name exactly as passed (`None`
included; never by the identifier), in input order; for pairwise-distinct
display names this is exactly one entry per input. -/
theorem batch_orchestrator_fallback_mapping (env : Env)
    (companies : List (String × Option String)) (resp : String) (pe : PyError)
    (hne : companies ≠ [])
    (hnd : (companies.map fun c => keyOfName c.2).Nodup)
    (hgen : env.generate (_create_batch_prompt env companies) = .ok resp)
    (hparse : _parse_batch_response resp = .error pe) :
    analyze_multiple_competitors env companies
      = .ok (companies.map fun c => (keyOfName c.2, fallbackItem env c.1 c.2)) ∧
    (companies.map fun c => (keyOfName c.2, fallbackItem env c.1 c.2)).length
      = companies.length ∧
    (companies.map fun c => (keyOfName c.2, fallbackItem env c.1 c.2)).map Prod.fst
      = companies.map fun c => keyOfName c.2 := by
  refine ⟨?_, by simp, by simp⟩
  unfold analyze_multiple_competitors
  have hlen : companies.length ≠ 0 := fun h0 => hne (List.length_eq_zero.mp h0)
  simp only [_calculate_savings, if_neg hlen, ex_bind_ok, hgen, hparse]
  rw [fallback_eq_map env companies hnd]

/-- C2, witness: the end-to-end scenario — two named inputs, a batch
response that is not an array — yields a two-entry mapping without any
exception. -/
theorem batch_orchestrator_fallback_mapping_witness :
    analyze_multiple_competitors env0 companies2
      = .ok (companies2.map fun c => (keyOfName c.2, fallbackItem env0 c.1 c.2)) ∧
    (companies2.map fun c => (keyOfName c.2, fallbackItem env0 c.1 c.2)).length = 2 :=
  ⟨(batch_orchestrator_fallback_mapping env0 companies2 "no array here"
      (.jsonDecodeError "Expecting value") (by decide) (by decide) rfl (by rfl)).1,
   by decide⟩

/-- C2, counterexample. Two inputs sharing the display-name `"A"` produce a
one-entry mapping (the second overwrites the first), not the claimed one
entry per input. -/
theorem batch_orchestrator_duplicate_names_collapse :
    (analyze_multiple_competitors env0 companiesDup).map List.length = .ok 1 ∧
    companiesDup.length = 2 := by
  constructor
  · rfl
  · rfl

/-- C4, corrected. In fallback mode no per-item failure escapes: the
orchestrator still returns a mapping, and a failed item's entry is the
minimal error page built from the company's display-name (not its
identifier) and the error message, both of which occur verbatim in the
page. -/
theorem fallback_error_page_contents (env : Env)
    (companies : List (String × Option String)) (url : String)
    (name : Option String) (e : PyError)
    (hnd : (companies.map fun c => keyOfName c.2).Nodup)
    (hmem : (url, name) ∈ companies)
    (hfail : analyze_competitor env url name = .error e) :
    (∃ p q r, pyDictLookup (_fallback_individual_analysis env companies) (keyOfName name)
      = some (p ++ pyStrOfName name ++ q ++ e.message ++ r)) ∧
    (∀ resp pe, companies ≠ [] →
      env.generate (_create_batch_prompt env companies) = .ok resp →
      _parse_batch_response resp = .error pe →
      analyze_multiple_competitors env companies
        = .ok (_fallback_individual_analysis env companies)) := by
  constructor
  · rw [fallback_eq_map env companies hnd,
      pyDictLookup_map_of_mem env companies url name hnd hmem]
    unfold fallbackItem
    rw [hfail]
    refine ⟨"\n        <html>\n        <head><title>Analysis Failed - ",
      "</title></head>\n        <body>\n            <h1>Analysis Failed</h1>\n            <p><strong>Company:</strong> " ++
        pyStrOfName name ++ "</p>\n            <p><strong>Error:</strong> ",
      "</p>\n        </body>\n        </html>\n        ", ?_⟩
    unfold _create_error_report
    simp [String.append_assoc]
  · intro resp pe hne hgen hparse
    unfold analyze_multiple_competitors
    have hlen : companies.length ≠ 0 := fun h0 => hne (List.length_eq_zero.mp h0)
    simp only [_calculate_savings, if_neg hlen, ex_bind_ok, hgen, hparse]

/-- C4, witness: a one-element list whose generation response is
unparseable yields an error page carrying the display-name and the parse
error message. -/
theorem fallback_error_page_contents_witness :
    ∃ p q r, pyDictLookup (_fallback_individual_analysis env0 companiesF) (keyOfName (some "AcmeCo"))
      = some (p ++ pyStrOfName (some "AcmeCo") ++ q ++
          (PyError.valueError "Failed to parse agent response: Expecting value").message ++ r) :=
  (fallback_error_page_contents env0 companiesF "https://acme.example" (some "AcmeCo")
    (.valueError "Failed to parse agent response: Expecting value")
    (by decide) (by decide) (by rfl)).1

set_option maxRecDepth 8000 in
/-- C4, counterexample. The error page stored for `companiesF` contains the
display-name `"AcmeCo"` but not the identifier `"https://acme.example"`:
the claim that the page contains the company's identifier is false. -/
theorem fallback_error_page_lacks_identifier :
    pyDictLookup (_fallback_individual_analysis env0 companiesF) (.str "AcmeCo") = some pageF ∧
    pyIn "https://acme.example" pageF = false ∧
    pyIn "AcmeCo" pageF = true := by
  refine ⟨by rfl, by decide, by decide⟩

lemma orNA_of_nullOrAbsent (o : Option Json) (h : nullOrAbsent o = true) :
    orNA o = "N/A" := by
  match o with
  | none => rfl
  | some .null => rfl
  | some (.bool b) => simp [nullOrAbsent] at h
  | some (.num n) => simp [nullOrAbsent] at h
  | some (.str s) => simp [nullOrAbsent] at h
  | some (.arr l) => simp [nullOrAbsent] at h
  | some (.obj f) => simp [nullOrAbsent] at h

/-- Inversion of a successful `format_html_args` run on an object record
with object-valued `overview` and `market_position`: each scalar slot of the
produced arguments is the source's `.get` chain composed with the `or "N/A"`
substitution (`orNA`) or the f-string conversion (`pyStr`). -/
lemma args_scalar_slots (fs ov mp : List (String × Json)) (t : String) (args : TemplateArgs)
    (hov : jLookup fs "overview" = some (.obj ov))
    (hmp : jLookup fs "market_position" = some (.obj mp))
    (h : format_html_args (.obj fs) t = .ok args) :
    args.founded_year = orNA (jLookup ov "founded_year") ∧
    args.headquarters = orNA (jLookup ov "headquarters") ∧
    args.size = orNA (jLookup ov "size") ∧
    args.market_share = orNA (jLookup mp "market_share") ∧
    args.pricing_model = orNA (jLookup fs "pricing_model") ∧
    args.description = pyStr ((jLookup ov "description").getD (.str "No description available")) ∧
    args.target_market = pyStr ((jLookup mp "target_market").getD (.str "N/A")) := by
  simp only [format_html_args, jGetD, jGet2D, jGet2Opt, jGetOpt, hov, hmp,
    Option.getD_some, ex_bind_ok, ex_bind_error] at h
  cases h1 : _format_products ((jLookup fs "products_services").getD (.arr [])) with
  | error e => rw [h1] at h; rw [ex_bind_error] at h; exact Except.noConfusion h
  | ok s1 =>
  rw [h1] at h; simp only [ex_bind_ok] at h
  cases h2 : _format_competitors ((jLookup mp "key_competitors").getD (.arr [])) with
  | error e => rw [h2] at h; rw [ex_bind_error] at h; exact Except.noConfusion h
  | ok s2 =>
  rw [h2] at h; simp only [ex_bind_ok] at h
  cases h3 : _format_list_items ((jLookup fs "strengths").getD (.arr [])) "list-item" with
  | error e => rw [h3] at h; rw [ex_bind_error] at h; exact Except.noConfusion h
  | ok s3 =>
  rw [h3] at h; simp only [ex_bind_ok] at h
  cases h4 : _format_list_items ((jLookup fs "weaknesses").getD (.arr [])) "list-item weakness" with
  | error e => rw [h4] at h; rw [ex_bind_error] at h; exact Except.noConfusion h
  | ok s4 =>
  rw [h4] at h; simp only [ex_bind_ok] at h
  cases h5 : _format_news ((jLookup fs "recent_news").getD (.arr [])) with
  | error e => rw [h5] at h; rw [ex_bind_error] at h; exact Except.noConfusion h
  | ok s5 =>
  rw [h5] at h; simp only [ex_bind_ok] at h
  cases h6 : _format_tags ((jLookup fs "technology_stack").getD (.arr [])) with
  | error e => rw [h6] at h; rw [ex_bind_error] at h; exact Except.noConfusion h
  | ok s6 =>
  rw [h6] at h; simp only [ex_bind_ok] at h
  cases h7 : _format_social_media ((jLookup fs "social_media_presence").getD (.obj [])) with
  | error e => rw [h7] at h; rw [ex_bind_error] at h; exact Except.noConfusion h
  | ok s7 =>
  rw [h7] at h; simp only [ex_bind_ok, Except.ok.injEq] at h
  subst h
  exact ⟨rfl, rfl, rfl, rfl, rfl, rfl, rfl⟩

/-- C3, corrected. For a record whose `overview` and `market_position` are
objects, every null-or-absent occurrence of the five truthiness-guarded
scalars (`founded_year`, `headquarters`, `size`, `market_share`,
`pricing_model`) renders as the literal `"N/A"` in its slot, and `.get`
defaults mean no missing-key error is ever raised; but `description` and
`target_market` render their placeholders only when absent — a present
`null` there renders Python's `"None"` instead. -/
theorem null_or_absent_scalars_render_na (fs ov mp : List (String × Json))
    (t : String) (args : TemplateArgs)
    (hov : jLookup fs "overview" = some (.obj ov))
    (hmp : jLookup fs "market_position" = some (.obj mp))
    (hargs : format_html_args (.obj fs) t = .ok args)
    (hfy : nullOrAbsent (jLookup ov "founded_year") = true)
    (hhq : nullOrAbsent (jLookup ov "headquarters") = true)
    (hsz : nullOrAbsent (jLookup ov "size") = true)
    (hms : nullOrAbsent (jLookup mp "market_share") = true)
    (hpm : nullOrAbsent (jLookup fs "pricing_model") = true) :
    args.founded_year = "N/A" ∧ args.headquarters = "N/A" ∧ args.size = "N/A" ∧
    args.market_share = "N/A" ∧ args.pricing_model = "N/A" ∧
    (jLookup ov "description" = some .null → args.description = "None") ∧
    (jLookup mp "target_market" = some .null → args.target_market = "None") ∧
    (jLookup ov "description" = none → args.description = "No description available") ∧
    (jLookup mp "target_market" = none → args.target_market = "N/A") := by
  obtain ⟨e1, e2, e3, e4, e5, e6, e7⟩ := args_scalar_slots fs ov mp t args hov hmp hargs
  refine ⟨?_, ?_, ?_, ?_, ?_, ?_, ?_, ?_, ?_⟩
  · rw [e1, orNA_of_nullOrAbsent _ hfy]
  · rw [e2, orNA_of_nullOrAbsent _ hhq]
  · rw [e3, orNA_of_nullOrAbsent _ hsz]
  · rw [e4, orNA_of_nullOrAbsent _ hms]
  · rw [e5, orNA_of_nullOrAbsent _ hpm]
  · intro hd; rw [e6, hd]; rfl
  · intro hd; rw [e7, hd]; rfl
  · intro hd; rw [e6, hd]; rfl
  · intro hd; rw [e7, hd]; rfl

/-- C3, witness: on `data3` the five guarded scalars render `"N/A"` while
the null `description` renders `"None"`. -/
theorem null_or_absent_scalars_render_na_witness :
    format_html_args data3 "2026-02-03" = .ok argsD3 ∧
    argsD3.founded_year = "N/A" ∧ argsD3.market_share = "N/A" ∧
    argsD3.pricing_model = "N/A" ∧ argsD3.description = "None" := by
  have h := null_or_absent_scalars_render_na fs3 ov3 mp3 "2026-02-03" argsD3
    (by rfl) (by rfl) (by rfl) (by rfl) (by rfl) (by rfl) (by rfl) (by rfl)
  exact ⟨by rfl, h.1, h.2.2.2.1, h.2.2.2.2.1, h.2.2.2.2.2.1 (by rfl)⟩

/-- C3, counterexample. On `data3` — `description` and `target_market`
present but `null` — the rendered page carries Python's `"None"` in those
positions, not the claimed neutral placeholder. -/
theorem null_description_renders_none :
    format_html_from_json data3 "2026-02-03" = .ok (HTML_TEMPLATE_format argsD3) ∧
    argsD3.description = "None" ∧ argsD3.target_market = "None" :=
  ⟨rfl, rfl, rfl⟩

/-- C10, confirmed. The five truthiness-guarded scalar slots substitute
`"N/A"` for every falsy present value — `0`, the empty string, `false` —
not only for `null`, because the source tests `value or "N/A"`. -/
theorem falsy_scalars_render_na (fs ov mp : List (String × Json))
    (t : String) (args : TemplateArgs) (fy hq sz ms pm : Json)
    (hov : jLookup fs "overview" = some (.obj ov))
    (hmp : jLookup fs "market_position" = some (.obj mp))
    (hargs : format_html_args (.obj fs) t = .ok args)
    (hfy : jLookup ov "founded_year" = some fy) (hfyF : pyTruthy fy = false)
    (hhq : jLookup ov "headquarters" = some hq) (hhqF : pyTruthy hq = false)
    (hsz : jLookup ov "size" = some sz) (hszF : pyTruthy sz = false)
    (hms : jLookup mp "market_share" = some ms) (hmsF : pyTruthy ms = false)
    (hpm : jLookup fs "pricing_model" = some pm) (hpmF : pyTruthy pm = false) :
    args.founded_year = "N/A" ∧ args.headquarters = "N/A" ∧ args.size = "N/A" ∧
    args.market_share = "N/A" ∧ args.pricing_model = "N/A" := by
  obtain ⟨e1, e2, e3, e4, e5, -, -⟩ := args_scalar_slots fs ov mp t args hov hmp hargs
  refine ⟨?_, ?_, ?_, ?_, ?_⟩
  · rw [e1, hfy]; simp [orNA, hfyF]
  · rw [e2, hhq]; simp [orNA, hhqF]
  · rw [e3, hsz]; simp [orNA, hszF]
  · rw [e4, hms]; simp [orNA, hmsF]
  · rw [e5, hpm]; simp [orNA, hpmF]

/-- C10, witness: `founded_year = 0` and empty-string scalars all render
`"N/A"` on `data10`. -/
theorem falsy_scalars_render_na_witness :
    format_html_args data10 "2026-02-03" = .ok args10 ∧
    args10.founded_year = "N/A" ∧ args10.headquarters = "N/A" ∧ args10.size = "N/A" ∧
    args10.market_share = "N/A" ∧ args10.pricing_model = "N/A" := by
  have h := falsy_scalars_render_na fs10 ov10 mp10 "2026-02-03" args10
    (.num 0) (.str "") (.str "") (.str "") (.str "")
    (by rfl) (by rfl) (by rfl) (by rfl) (by rfl) (by rfl) (by rfl) (by rfl)
    (by rfl) (by rfl) (by rfl) (by rfl) (by rfl)
  exact ⟨by rfl, h.1, h.2.1, h.2.2.1, h.2.2.2.1, h.2.2.2.2⟩

/-- C7, confirmed. Each list-valued section renders exactly the single
"no data" paragraph on an empty list (no per-item fragments), and exactly
one styled fragment per element — concatenated in input order, never
sorted — on a non-empty list. -/
theorem list_sections_placeholder_or_per_item (l : List Json) (c : String) :
    (_format_products (.arr []) = .ok "<p>No product information available.</p>" ∧
      (l ≠ [] → (∀ p ∈ l, isObjJson p = true) →
        _format_products (.arr l)
          = .ok ("<div class=\"grid\">" ++ String.join (l.map productCardStr) ++ "</div>"))) ∧
    (_format_competitors (.arr []) = .ok "<p>No competitor information available.</p>" ∧
      (l ≠ [] → _format_competitors (.arr l) = .ok (String.join (l.map competitorTag)))) ∧
    (_format_list_items (.arr []) c = .ok "<p>No information available.</p>" ∧
      (l ≠ [] → _format_list_items (.arr l) c = .ok (String.join (l.map (listItemDiv c))))) ∧
    (_format_news (.arr []) = .ok "<p>No recent news available.</p>" ∧
      (l ≠ [] → (∀ p ∈ l, isObjJson p = true) →
        _format_news (.arr l) = .ok (String.join (l.map newsCardStr)))) ∧
    (_format_tags (.arr []) = .ok "<p>No information available.</p>" ∧
      (l ≠ [] → _format_tags (.arr l) = .ok (String.join (l.map techTag)))) := by
  have htr : ∀ h : l ≠ [], pyTruthy (.arr l) = true := by
    intro h
    cases l with
    | nil => exact absurd rfl h
    | cons a t => rfl
  refine ⟨⟨rfl, ?_⟩, ⟨rfl, ?_⟩, ⟨rfl, ?_⟩, ⟨rfl, ?_⟩, ⟨rfl, ?_⟩⟩
  · intro h hobj
    rw [_format_products, htr h]
    simp only [Bool.true_eq_false, if_false, pyIter, ex_bind_ok]
    rw [mapM_ok_of productCard productCardStr l ?cards]
    · rfl
    case cards =>
      intro a ha
      have := hobj a ha
      cases a <;> simp [isObjJson] at this ⊢
      exact productCard_obj _
  · intro h
    rw [_format_competitors, htr h]
    simp only [Bool.true_eq_false, if_false, pyIter, ex_bind_ok]
  · intro h
    rw [_format_list_items, htr h]
    simp only [Bool.true_eq_false, if_false, pyIter, ex_bind_ok]
  · intro h hobj
    rw [_format_news, htr h]
    simp only [Bool.true_eq_false, if_false, pyIter, ex_bind_ok]
    rw [mapM_ok_of newsCard newsCardStr l ?cards]
    · rfl
    case cards =>
      intro a ha
      have := hobj a ha
      cases a <;> simp [isObjJson] at this ⊢
      exact newsCard_obj _
  · intro h
    rw [_format_tags, htr h]
    simp only [Bool.true_eq_false, if_false, pyIter, ex_bind_ok]

/-- C7, witness: on the two-element product list `l7` the products section
renders exactly two cards in input order, and the empty list renders the
single placeholder. -/
theorem list_sections_witness :
    _format_products (.arr l7)
      = .ok ("<div class=\"grid\">" ++ String.join (l7.map productCardStr) ++ "</div>") ∧
    _format_list_items (.arr l7) "list-item"
      = .ok (String.join (l7.map (listItemDiv "list-item"))) ∧
    _format_products (.arr []) = .ok "<p>No product information available.</p>" := by
  have h := list_sections_placeholder_or_per_item l7 "list-item"
  exact ⟨h.1.2 (by simp [l7]) (by decide), h.2.2.1.2 (by simp [l7]), h.1.1⟩

end CompetitorReport
